import Mathlib

/-!
Verification of the tile-based platformer (src/platformer.js and the
unnamed variant src/unnamed/part_000, whose game logic is identical).

The JavaScript game logic is shallowly embedded over exact rational
arithmetic: positions, velocities and physical parameters are `ℚ`,
tile lookups return `Option ℕ` (a JS out-of-bounds array read yields
`undefined`, modelled as `none`), and JS truthiness of a tile code is
made explicit (`undefined` and `0` are falsy).  Entities are records
mirroring the object literal built by `setupEntity`; in-place mutation
becomes functional record update.
-/

namespace Platformer

/-- Tile size in pixels: `Game.TILE = 32`. -/
def TILE : ℚ := 32

/-- Map width in tiles: `Game.MAP.tw = 64`. -/
def MAPtw : ℤ := 64

/-- Map height in tiles: `Game.MAP.th = 48`. -/
def MAPth : ℤ := 48

/-- `Game.METER = Game.TILE`. -/
def METER : ℚ := TILE

/-- `Game.GRAVITY = 9.8 * 6`. -/
def GRAVITY : ℚ := (98 / 10) * 6

/-- `Game.MAXDX = 15`. -/
def MAXDX : ℚ := 15

/-- `Game.MAXDY = 60`. -/
def MAXDY : ℚ := 60

/-- `Game.ACCEL = 1/2`. -/
def ACCEL : ℚ := 1 / 2

/-- `Game.FRICTION = 1/6`. -/
def FRICTION : ℚ := 1 / 6

/-- `Game.IMPULSE = 1500`. -/
def IMPULSE : ℚ := 1500

/-- `Game.bound(x, min, max) = Math.max(min, Math.min(max, x))`. -/
def bound (x lo hi : ℚ) : ℚ := max lo (min hi x)

/-- JS truncation toward zero, as performed by the `%` operator on numbers. -/
def jsTrunc (q : ℚ) : ℤ := if 0 ≤ q then ⌊q⌋ else ⌈q⌉

/-- The JS remainder `a % b` (result carries the sign of the dividend). -/
def jsMod (a b : ℚ) : ℚ := a - b * (jsTrunc (a / b) : ℚ)

/-- `p2t(p) = Math.floor(p / TILE)`. -/
def p2t (p : ℚ) : ℤ := ⌊p / TILE⌋

/-- `t2p(t) = t * TILE`. -/
def t2p (t : ℤ) : ℚ := (t : ℚ) * TILE

/-- The tile map; `cells` is the flat row-major JS array `this.cells`. -/
structure Grid where
  cells : List ℕ
deriving DecidableEq

/-- `tcell(tx, ty) = this.cells[tx + (ty * Game.MAP.tw)]`.  A JS array read at a
negative or too-large index yields `undefined`, modelled as `none`.  Note the
code range-checks only the final linear index, never `tx`/`ty` separately. -/
def tcell (g : Grid) (tx ty : ℤ) : Option ℕ :=
  let i := tx + ty * MAPtw
  if 0 ≤ i then g.cells[i.toNat]? else none

/-- JS truthiness of a tile lookup: `undefined` and `0` are falsy, any other
tile code is truthy (solid). -/
def truthy : Option ℕ → Bool
  | none => false
  | some n => n != 0

/-- A stored spawn point (`entity.start = { x: obj.x, y: obj.y }`). -/
structure Point where
  x : ℚ
  y : ℚ
deriving DecidableEq

/-- Entity record, mirroring the object literal returned by `setupEntity`.
Fields the code leaves `undefined` at construction time (`jump`, `jumping`,
`falling`, `dead`) are modelled as `Bool` starting `false`, which has the same
truthiness.  The duck-typed `collected` field (counter on the player, flag on a
treasure) is an `ℕ` whose truthiness mirrors JS: `0` falsy, nonzero truthy. -/
structure Entity where
  x : ℚ
  y : ℚ
  dx : ℚ
  dy : ℚ
  ddx : ℚ
  ddy : ℚ
  gravity : ℚ
  maxdx : ℚ
  maxdy : ℚ
  impulse : ℚ
  accel : ℚ
  friction : ℚ
  monster : Bool
  player : Bool
  treasure : Bool
  left : Bool
  right : Bool
  jump : Bool
  jumping : Bool
  falling : Bool
  dead : Bool
  start : Point
  killed : ℕ
  collected : ℕ
deriving DecidableEq

/-- The horizontal acceleration accumulated by `updateEntity` before
integration: gravity-free part of `entity.ddx` (reset to 0, then movement
intent or friction applied, both halved while airborne). -/
def ddxStep (e : Entity) : ℚ :=
  let accel := e.accel * (if e.falling then 1 / 2 else 1)
  let friction := e.friction * (if e.falling then 1 / 2 else 1)
  let ddx0 : ℚ := 0
  let ddx1 := if e.left then ddx0 - accel else if decide (e.dx < 0) then ddx0 + friction else ddx0
  if e.right then ddx1 + accel else if decide (e.dx > 0) then ddx1 - friction else ddx1

/-- The horizontal velocity after integration and clamping, before the
anti-jiggle zero clamp: `bound(entity.dx + dt * entity.ddx, -maxdx, maxdx)`. -/
def dxStep (dt : ℚ) (e : Entity) : ℚ :=
  bound (e.dx + dt * ddxStep e) (-e.maxdx) e.maxdx

/-- Shallow embedding of `updateEntity(entity)`: one physics tick of length
`dt` for one entity against grid `g`.  Follows the source line by line; local
JS variables that are reassigned (`cell`, `cellright`, `ny`) become successive
`let` bindings.  The mid-branch write `entity.falling = false` in the landing
case is always overwritten by the final footing update and so is not bound
separately. -/
def updateEntity (g : Grid) (dt : ℚ) (e : Entity) : Entity :=
  let wasleft := decide (e.dx < 0)
  let wasright := decide (e.dx > 0)
  let ddx2 := ddxStep e
  let doJump := e.jump && !e.jumping && !e.falling
  let ddy1 := if doJump then e.gravity - e.impulse else e.gravity
  let jumping1 := if doJump then true else e.jumping
  let x1 := e.x + dt * e.dx
  let y1 := e.y + dt * e.dy
  let dx1 := dxStep dt e
  let dy1 := bound (e.dy + dt * ddy1) (-e.maxdy) e.maxdy
  let dx2 := if (wasleft && decide (dx1 > 0)) || (wasright && decide (dx1 < 0)) then (0 : ℚ) else dx1
  let tx := p2t x1
  let ty := p2t y1
  let nx := jsMod x1 TILE
  let ny := jsMod y1 TILE
  let nxB := decide (nx ≠ 0)
  let cell0 := truthy (tcell g tx ty)
  let cellright0 := truthy (tcell g (tx + 1) ty)
  let celldown := truthy (tcell g tx (ty + 1))
  let celldiag := truthy (tcell g (tx + 1) (ty + 1))
  let vDown := decide (dy1 > 0) && ((celldown && !cell0) || (celldiag && !cellright0 && nxB))
  let vUp := decide (dy1 < 0) && ((cell0 && !celldown) || (cellright0 && !celldiag && nxB))
  let y2 := if vDown then t2p ty else if vUp then t2p (ty + 1) else y1
  let dy2 := if vDown || vUp then (0 : ℚ) else dy1
  let jumping2 := if vDown then false else jumping1
  let cell1 := if vUp then celldown else cell0
  let cellright1 := if vUp then celldiag else cellright0
  let ny1 := if vDown || vUp then (0 : ℚ) else ny
  let nyB := decide (ny1 ≠ 0)
  let hRight := decide (dx2 > 0) && ((cellright1 && !cell1) || (celldiag && !celldown && nyB))
  let hLeft := decide (dx2 < 0) && ((cell1 && !cellright1) || (celldown && !celldiag && nyB))
  let x2 := if hRight then t2p tx else if hLeft then t2p (tx + 1) else x1
  let dx3 := if hRight || hLeft then (0 : ℚ) else dx2
  let revL := e.monster && e.left && (cell1 || !celldown)
  let revR := e.monster && !(e.left && (cell1 || !celldown)) && e.right && (cellright1 || !celldiag)
  let left1 := if revL then false else if revR then true else e.left
  let right1 := if revL then true else if revR then false else e.right
  let falling2 := !(celldown || (nxB && celldiag))
  { e with
    x := x2
    y := y2
    dx := dx3
    dy := dy2
    ddx := ddx2
    ddy := ddy1
    left := left1
    right := right1
    jumping := jumping2
    falling := falling2 }

/-- `Game.overlap(x1,y1,w1,h1,x2,y2,w2,h2)`: closed-interval AABB test. -/
def overlap (x1 y1 w1 h1 x2 y2 w2 h2 : ℚ) : Bool :=
  !(decide (x1 + w1 - 1 < x2) || decide (x2 + w2 - 1 < x1) ||
    decide (y1 + h1 - 1 < y2) || decide (y2 + h2 - 1 < y1))

/-- `killMonster(monster)`: increments the player kill counter and marks the
monster dead.  Returns the updated (player, monster) pair. -/
def killMonster (p m : Entity) : Entity × Entity :=
  ({ p with killed := p.killed + 1 }, { m with dead := true })

/-- `killPlayer(player)`: teleport back to the stored start position and zero
both velocity components; no other field is touched. -/
def killPlayer (p : Entity) : Entity :=
  { p with x := p.start.x, y := p.start.y, dx := 0, dy := 0 }

/-- `collectTreasure(t)`: increments the player collected counter and marks the
treasure collected (JS assigns `true`; under truthiness this is the nonzero
value `1`).  Returns the updated (player, treasure) pair. -/
def collectTreasure (p t : Entity) : Entity × Entity :=
  ({ p with collected := p.collected + 1 }, { t with collected := 1 })

/-- `updateMonster(monster)`: skip dead monsters; otherwise run physics, then
resolve player contact — a stomp (player moving down and more than half a tile
above) kills the monster, any other contact kills the player.  Returns the
updated (player, monster) pair. -/
def updateMonster (g : Grid) (dt : ℚ) (p m : Entity) : Entity × Entity :=
  if m.dead then (p, m)
  else
    let m1 := updateEntity g dt m
    if overlap p.x p.y TILE TILE m1.x m1.y TILE TILE then
      if decide (p.dy > 0) && decide (m1.y - p.y > TILE / 2) then
        killMonster p m1
      else
        (killPlayer p, m1)
    else (p, m1)

/-- `checkTreasure()`: walk the treasure list, collecting every uncollected
treasure the player overlaps.  Returns the updated player and treasure list. -/
def checkTreasure (p : Entity) : List Entity → Entity × List Entity
  | [] => (p, [])
  | t :: ts =>
    if (t.collected == 0) && overlap p.x p.y TILE TILE t.x t.y TILE TILE then
      let pt := collectTreasure p t
      let rest := checkTreasure pt.1 ts
      (rest.1, pt.2 :: rest.2)
    else
      let rest := checkTreasure p ts
      (rest.1, t :: rest.2)

/-- The optional properties bag of a placed level object.  A numeric field is
`none` when absent; `left`/`right` are read directly (absent = falsy). -/
structure ObjProps where
  gravity : Option ℚ
  maxdx : Option ℚ
  maxdy : Option ℚ
  impulse : Option ℚ
  accel : Option ℚ
  friction : Option ℚ
  left : Bool
  right : Bool
deriving DecidableEq

/-- A placed object from the level file (position, type tag, properties). -/
structure LevelObj where
  x : ℚ
  y : ℚ
  type : String
  properties : ObjProps
deriving DecidableEq

/-- JS falsy-coalescing `v || d` for a number-or-undefined `v`: both
`undefined` and an authored `0` fall back to the default. -/
def jsOr (v : Option ℚ) (d : ℚ) : ℚ :=
  match v with
  | none => d
  | some q => if q = 0 then d else q

/-- `setupEntity(obj)`: constructs an entity from a placed level object,
falsy-coalescing every numeric property to the global defaults. -/
def setupEntity (obj : LevelObj) : Entity :=
  { x := obj.x
    y := obj.y
    dx := 0
    dy := 0
    ddx := 0
    ddy := 0
    gravity := METER * jsOr obj.properties.gravity GRAVITY
    maxdx := METER * jsOr obj.properties.maxdx MAXDX
    maxdy := METER * jsOr obj.properties.maxdy MAXDY
    impulse := METER * jsOr obj.properties.impulse IMPULSE
    accel := METER * jsOr obj.properties.maxdx MAXDX / jsOr obj.properties.accel ACCEL
    friction := METER * jsOr obj.properties.maxdx MAXDX / jsOr obj.properties.friction FRICTION
    monster := obj.type == "monster"
    player := obj.type == "player"
    treasure := obj.type == "treasure"
    left := obj.properties.left
    right := obj.properties.right
    jump := false
    jumping := false
    falling := false
    dead := false
    start := ⟨obj.x, obj.y⟩
    killed := 0
    collected := 0 }

/-! Batteries seals the arithmetic on `ℚ` behind `@[irreducible]`; reopen it so
that concrete states of the embedded game can be evaluated by `decide`. -/
attribute [local semireducible] Rat.add Rat.mul Rat.inv Rat.sub

/-! ### Helper lemmas -/

theorem lo_le_bound (x lo hi : ℚ) : lo ≤ bound x lo hi := le_max_left _ _

theorem bound_le_hi (x lo hi : ℚ) (h : lo ≤ hi) : bound x lo hi ≤ hi :=
  max_le h (min_le_left _ _)

/-- The empty tile map: every lookup is `undefined`. -/
def g0 : Grid := ⟨[]⟩

theorem tcell_g0 (tx ty : ℤ) : tcell g0 tx ty = none := by
  simp [tcell, g0]

/-- A baseline entity carrying exactly the default physical parameters
produced by `setupEntity` for an object with no authored properties
(`gravity = 32 * 58.8`, `maxdx = 32 * 15`, `maxdy = 32 * 60`,
`impulse = 32 * 1500`, `accel = 32 * 15 / (1/2)`, `friction = 32 * 15 / (1/6)`). -/
def eBase : Entity :=
  { x := 0, y := 0, dx := 0, dy := 0, ddx := 0, ddy := 0,
    gravity := 9408 / 5, maxdx := 480, maxdy := 1920, impulse := 48000,
    accel := 960, friction := 2880,
    monster := false, player := true, treasure := false,
    left := false, right := false, jump := false, jumping := false,
    falling := false, dead := false,
    start := ⟨0, 0⟩, killed := 0, collected := 0 }

/-! ### Claim C10 -/

/-- Claim C10: a falsy authored value (`0`) for any of the six numeric
properties makes `setupEntity` substitute the named global default exactly as
if the property were absent; in particular an authored gravity of `0` yields
`METER * GRAVITY`. -/
theorem setup_falsy_defaults (obj : LevelObj) :
    setupEntity { obj with properties := { obj.properties with gravity := some 0 } } =
      setupEntity { obj with properties := { obj.properties with gravity := none } } ∧
    setupEntity { obj with properties := { obj.properties with maxdx := some 0 } } =
      setupEntity { obj with properties := { obj.properties with maxdx := none } } ∧
    setupEntity { obj with properties := { obj.properties with maxdy := some 0 } } =
      setupEntity { obj with properties := { obj.properties with maxdy := none } } ∧
    setupEntity { obj with properties := { obj.properties with impulse := some 0 } } =
      setupEntity { obj with properties := { obj.properties with impulse := none } } ∧
    setupEntity { obj with properties := { obj.properties with accel := some 0 } } =
      setupEntity { obj with properties := { obj.properties with accel := none } } ∧
    setupEntity { obj with properties := { obj.properties with friction := some 0 } } =
      setupEntity { obj with properties := { obj.properties with friction := none } } ∧
    (setupEntity { obj with properties := { obj.properties with gravity := some 0 } }).gravity =
      METER * GRAVITY := by
  refine ⟨?_, ?_, ?_, ?_, ?_, ?_, ?_⟩ <;> simp [setupEntity, jsOr]

/-! ### Claim C4 -/

/-- Formalisation of claim C4 as stated: every tile query with an out-of-range
coordinate (negative, or at least the map width/height) yields a falsy,
non-solid result. -/
def claimC4 : Prop :=
  ∀ (g : Grid) (tx ty : ℤ),
    (tx < 0 ∨ MAPtw ≤ tx ∨ ty < 0 ∨ MAPth ≤ ty) → truthy (tcell g tx ty) = false

/-- Claim C4 counterexample: `tcell` range-checks only the linear index
`tx + ty * 64`, so the out-of-range query `(tx, ty) = (-1, 1)` wraps around to
linear index `63` — the last cell of row 0 — and reports solid on a grid whose
cell 63 is nonzero. -/
theorem tcell_out_of_range_claim_false : ¬ claimC4 := by
  intro h
  have h63 := h ⟨List.replicate 63 0 ++ [1]⟩ (-1) 1 (Or.inl (by decide))
  revert h63
  decide

/-- Claim C4 amended: `tcell` never throws (it is total, returning `none` for
any index outside the backing array), and a query whose tile row is out of
range while `0 ≤ tx < 64` returns `undefined`/falsy on any grid of at most
full size (`64 * 48 = 3072` cells); a laterally out-of-range `tx` instead
wraps into an adjacent row, as the counterexample shows. -/
theorem tcell_vertical_out_of_range_none (g : Grid) (tx ty : ℤ)
    (hlen : g.cells.length ≤ 3072) (htx0 : 0 ≤ tx) (htx : tx < MAPtw)
    (hty : ty < 0 ∨ MAPth ≤ ty) : tcell g tx ty = none := by
  unfold MAPtw at htx
  unfold MAPth at hty
  unfold tcell MAPtw
  rcases hty with hty | hty
  · rw [if_neg]
    omega
  · rw [if_pos (by omega)]
    apply List.getElem?_eq_none
    omega

/-- Witness for the amended claim C4 at a concrete out-of-range query. -/
theorem tcell_vertical_out_of_range_witness :
    g0.cells.length ≤ 3072 ∧ tcell g0 0 48 = none :=
  ⟨by decide, tcell_vertical_out_of_range_none g0 0 48 (by decide) (by decide)
    (by decide) (Or.inr (by decide))⟩

/-! ### Claim C2 -/

theorem ite_zero_cases (A B : Bool) (v : ℚ) :
    (if A then (0 : ℚ) else if B then 0 else v) = 0 ∨
      (if A then (0 : ℚ) else if B then 0 else v) = v := by
  cases A <;> cases B <;> simp

theorem ite_zero_bound (C : Bool) (a lo hi : ℚ) :
    (if C then (0 : ℚ) else bound a lo hi) = 0 ∨
      ∃ w, (if C then (0 : ℚ) else bound a lo hi) = bound w lo hi := by
  cases C
  · exact Or.inr ⟨a, rfl⟩
  · exact Or.inl rfl

theorem updateEntity_dx_cases (g : Grid) (dt : ℚ) (e : Entity) :
    (updateEntity g dt e).dx = 0 ∨ (updateEntity g dt e).dx = dxStep dt e := by
  simp only [updateEntity]
  exact ite_zero_cases _ _ _

theorem updateEntity_dy_cases (g : Grid) (dt : ℚ) (e : Entity) :
    (updateEntity g dt e).dy = 0 ∨
      ∃ a, (updateEntity g dt e).dy = bound a (-e.maxdy) e.maxdy := by
  simp only [updateEntity]
  exact ite_zero_bound _ _ _ _

/-- Claim C2: after `updateEntity` both velocity components lie within the
entity's configured per-axis bounds, and `killPlayer`, the only other writer of
velocity, preserves the bounds (it zeroes both components). -/
theorem velocity_clamped (g : Grid) (dt : ℚ) (e : Entity)
    (hx : 0 ≤ e.maxdx) (hy : 0 ≤ e.maxdy) :
    (-e.maxdx ≤ (updateEntity g dt e).dx ∧ (updateEntity g dt e).dx ≤ e.maxdx) ∧
    (-e.maxdy ≤ (updateEntity g dt e).dy ∧ (updateEntity g dt e).dy ≤ e.maxdy) ∧
    (-e.maxdx ≤ (killPlayer e).dx ∧ (killPlayer e).dx ≤ e.maxdx) ∧
    (-e.maxdy ≤ (killPlayer e).dy ∧ (killPlayer e).dy ≤ e.maxdy) := by
  refine ⟨?_, ?_, ?_, ?_⟩
  · rcases updateEntity_dx_cases g dt e with h | h <;> rw [h]
    · constructor <;> linarith
    · exact ⟨lo_le_bound _ _ _, bound_le_hi _ _ _ (by linarith)⟩
  · rcases updateEntity_dy_cases g dt e with h | ⟨a, h⟩ <;> rw [h]
    · constructor <;> linarith
    · exact ⟨lo_le_bound _ _ _, bound_le_hi _ _ _ (by linarith)⟩
  · simp only [killPlayer]
    constructor <;> linarith
  · simp only [killPlayer]
    constructor <;> linarith

/-- Witness for claim C2 at a concrete entity and tick. -/
theorem velocity_clamped_witness :
    (0 : ℚ) ≤ eBase.maxdx ∧ (0 : ℚ) ≤ eBase.maxdy ∧
    ((-eBase.maxdx ≤ (updateEntity g0 (1 / 60) eBase).dx ∧
        (updateEntity g0 (1 / 60) eBase).dx ≤ eBase.maxdx) ∧
      (-eBase.maxdy ≤ (updateEntity g0 (1 / 60) eBase).dy ∧
        (updateEntity g0 (1 / 60) eBase).dy ≤ eBase.maxdy) ∧
      (-eBase.maxdx ≤ (killPlayer eBase).dx ∧ (killPlayer eBase).dx ≤ eBase.maxdx) ∧
      (-eBase.maxdy ≤ (killPlayer eBase).dy ∧ (killPlayer eBase).dy ≤ eBase.maxdy)) :=
  ⟨by decide, by decide, velocity_clamped g0 (1 / 60) eBase (by decide) (by decide)⟩

/-! ### Claim C8 -/

/-- Claim C8: overlapping an uncollected treasure marks it collected and
increments the player counter by exactly one; a second `checkTreasure` pass
over the now-collected treasure changes nothing. -/
theorem treasure_collection_idempotent (p t : Entity)
    (hc : t.collected = 0)
    (hov : overlap p.x p.y TILE TILE t.x t.y TILE TILE = true) :
    checkTreasure p [t] =
      ({ p with collected := p.collected + 1 }, [{ t with collected := 1 }]) ∧
    checkTreasure { p with collected := p.collected + 1 } [{ t with collected := 1 }] =
      ({ p with collected := p.collected + 1 }, [{ t with collected := 1 }]) := by
  constructor
  · simp [checkTreasure, collectTreasure, hc, hov]
  · simp [checkTreasure]

/-- A treasure at `(10, 10)`, overlapping a player at the origin. -/
def tGold : Entity := { eBase with x := 10, y := 10, treasure := true, player := false }

/-- Witness for claim C8: the player at the origin overlapping `tGold`. -/
theorem treasure_collection_witness :
    checkTreasure eBase [tGold] =
      ({ eBase with collected := eBase.collected + 1 }, [{ tGold with collected := 1 }]) ∧
    checkTreasure { eBase with collected := eBase.collected + 1 } [{ tGold with collected := 1 }] =
      ({ eBase with collected := eBase.collected + 1 }, [{ tGold with collected := 1 }]) :=
  treasure_collection_idempotent eBase tGold (by decide) (by decide)

/-! ### Claim C6 -/

/-- Claim C6: a live monster overlapping the player after its physics update,
with the player moving down and more than half a tile above the monster, is
stomped: its dead flag is set, the player kill counter increments by exactly
one, and the kill changes nothing else — in particular the monster position is
exactly the one the physics update produced. -/
theorem stomp_kills_monster (g : Grid) (dt : ℚ) (p m : Entity)
    (hdead : m.dead = false)
    (hov : overlap p.x p.y TILE TILE (updateEntity g dt m).x (updateEntity g dt m).y
      TILE TILE = true)
    (hdy : p.dy > 0)
    (hab : (updateEntity g dt m).y - p.y > TILE / 2) :
    updateMonster g dt p m =
      ({ p with killed := p.killed + 1 }, { updateEntity g dt m with dead := true }) := by
  simp only [updateMonster, killMonster, hdead, hov,
    decide_eq_true hdy, decide_eq_true hab]
  simp

/-- A motionless hovering monster at `(200, 320)` (zero gravity and max speeds,
so its physics update keeps it in place on the empty grid). -/
def mHover : Entity := { eBase with x := 200, y := 320, monster := true, player := false, gravity := 0, maxdx := 0, maxdy := 0 }

/-- A player 20 pixels above `mHover`, moving down. -/
def pStomp : Entity := { eBase with x := 200, y := 300, dy := 5 }

/-- Witness for claim C6: a stomp at concrete coordinates. -/
theorem stomp_kills_monster_witness :
    updateMonster g0 (1 / 60) pStomp mHover =
      ({ pStomp with killed := pStomp.killed + 1 },
        { updateEntity g0 (1 / 60) mHover with dead := true }) :=
  stomp_kills_monster g0 (1 / 60) pStomp mHover
    (by decide) (by decide) (by decide) (by decide)

/-! ### Claim C7 -/

/-- Claim C7: a live monster overlapping the player without the stomp
condition kills the player: position is reset to the stored start point and
both velocity components are zeroed, while every other player field (flags and
counters included) and every field of the physics-updated monster are left
unchanged. -/
theorem nonstomp_resets_player (g : Grid) (dt : ℚ) (p m : Entity)
    (hdead : m.dead = false)
    (hov : overlap p.x p.y TILE TILE (updateEntity g dt m).x (updateEntity g dt m).y
      TILE TILE = true)
    (hns : (decide (p.dy > 0) &&
      decide ((updateEntity g dt m).y - p.y > TILE / 2)) = false) :
    updateMonster g dt p m =
      ({ p with x := p.start.x, y := p.start.y, dx := 0, dy := 0 },
        updateEntity g dt m) := by
  simp only [updateMonster, killPlayer, hdead, hov, hns]
  simp

/-- A player touching `mHover` side-on (not moving down), with nonzero
counters, a distinct spawn point and raised jump/airborne flags. -/
def pSide : Entity := { eBase with x := 200, y := 300, start := ⟨10, 20⟩, killed := 7, collected := 2, jumping := true, falling := true }

/-- Witness for claim C7: the side-on contact resets the player to its spawn
point and leaves flags, counters and the monster alone. -/
theorem nonstomp_resets_player_witness :
    updateMonster g0 (1 / 60) pSide mHover =
      ({ pSide with x := pSide.start.x, y := pSide.start.y, dx := 0, dy := 0 },
        updateEntity g0 (1 / 60) mHover) :=
  nonstomp_resets_player g0 (1 / 60) pSide mHover (by decide) (by decide) (by decide)

/-! ### Claim C5 -/

/-- An entity moving left (`dx = -10`) with an active opposite (right)
movement intent, zero friction and a large acceleration, so the sign of its
horizontal velocity flips within one tick purely because of the intent. -/
def eReverse : Entity := { eBase with x := 160, dx := -10, right := true, friction := 0, accel := 1200 }

/-- Formalisation of claim C5 as stated: during `updateEntity` (on the empty
grid, which rules out collision zeroing) the horizontal velocity is forced to
exactly zero — result zero although the integrated, clamped velocity
`dxStep` is nonzero — if and only if it crossed zero and reversed sign purely
due to friction overshoot, that is, with no opposite movement intent active. -/
def claimC5 : Prop :=
  ∀ (dt : ℚ) (e : Entity),
    ((updateEntity g0 dt e).dx = 0 ∧ dxStep dt e ≠ 0) ↔
      ((e.dx < 0 ∧ dxStep dt e > 0 ∧ e.right = false) ∨
        (e.dx > 0 ∧ dxStep dt e < 0 ∧ e.left = false))

/-- Claim C5 counterexample: for `eReverse` the reversal is caused entirely by
the active right intent (friction is zero), yet the code still forces the
velocity to zero, so the "purely due to friction overshoot" qualification is
false: the clamp fires on any sign reversal. -/
theorem antijiggle_claim_false : ¬ claimC5 := by
  intro h
  have h2 := (h (1 / 60) eReverse).mp ⟨by decide, by decide⟩
  revert h2
  decide

/-- Claim C5 amended: the horizontal velocity is forced to exactly zero
(absent collision zeroing, here on the empty grid) exactly when it reversed
sign across the tick — whether the reversal came from friction overshoot or
from opposite movement intent. -/
theorem antijiggle_zeroes_any_reversal (dt : ℚ) (e : Entity) :
    (updateEntity g0 dt e).dx =
      if (decide (e.dx < 0) && decide (dxStep dt e > 0)) ||
          (decide (e.dx > 0) && decide (dxStep dt e < 0)) then 0
      else dxStep dt e := by
  simp only [updateEntity, tcell_g0]
  simp [truthy]

/-! ### Tile arithmetic lemmas -/

theorem jsTrunc_intCast (z : ℤ) : jsTrunc (z : ℚ) = z := by
  unfold jsTrunc
  split_ifs <;> simp

theorem t2p_div_TILE (r : ℤ) : t2p r / TILE = (r : ℚ) := by
  unfold t2p TILE
  rw [mul_div_cancel_right₀]
  norm_num

theorem p2t_t2p (r : ℤ) : p2t (t2p r) = r := by
  unfold p2t
  rw [t2p_div_TILE]
  exact Int.floor_intCast r

theorem jsMod_t2p (r : ℤ) : jsMod (t2p r) TILE = 0 := by
  unfold jsMod
  rw [t2p_div_TILE, jsTrunc_intCast]
  unfold t2p
  ring

theorem p2t_between (c : ℤ) (x : ℚ) (h1 : t2p c ≤ x) (h2 : x < t2p (c + 1)) :
    p2t x = c := by
  unfold p2t
  unfold t2p TILE at h1 h2
  rw [Int.floor_eq_iff]
  unfold TILE
  constructor
  · rw [le_div_iff₀ (by norm_num : (0:ℚ) < 32)]
    linarith
  · rw [div_lt_iff₀ (by norm_num : (0:ℚ) < 32)]
    push_cast at h2 ⊢
    linarith

theorem jsMod_ne_zero_between (c : ℤ) (x : ℚ) (h1 : t2p c < x) (h2 : x < t2p (c + 1)) :
    jsMod x TILE ≠ 0 := by
  unfold jsMod TILE
  unfold t2p TILE at h1 h2
  intro h
  have hx : x = 32 * (jsTrunc (x / 32) : ℚ) := by linarith
  rw [hx] at h1 h2
  have hc1 : (c : ℚ) < (jsTrunc (x / 32) : ℚ) := by linarith
  have hc2 : ((jsTrunc (x / 32) : ℤ) : ℚ) < ((c : ℚ) + 1) := by push_cast at h2 ⊢; linarith
  have h1z : c < jsTrunc (x / 32) := by exact_mod_cast hc1
  have h2z : jsTrunc (x / 32) < c + 1 := by exact_mod_cast hc2
  omega

/-! ### Vertical resolution lemmas, shared by the landing claims -/

/-- If after integration the entity (not jumping, no horizontal motion) sits in
an empty tile with a solid tile below and its post-clamp vertical velocity is
positive, the tick snaps it to the top of the occupied tile row, zeroes its
vertical velocity and grounds it. -/
theorem updateEntity_landing (g : Grid) (dt : ℚ) (e : Entity)
    (hj : e.jump = false) (hdx : e.dx = 0)
    (hcell : truthy (tcell g (p2t e.x) (p2t (e.y + dt * e.dy))) = false)
    (hdown : truthy (tcell g (p2t e.x) (p2t (e.y + dt * e.dy) + 1)) = true)
    (hdy1 : bound (e.dy + dt * e.gravity) (-e.maxdy) e.maxdy > 0) :
    (updateEntity g dt e).y = t2p (p2t (e.y + dt * e.dy)) ∧
      (updateEntity g dt e).dy = 0 ∧ (updateEntity g dt e).falling = false := by
  have hx1 : e.x + dt * e.dx = e.x := by rw [hdx]; ring
  simp only [updateEntity, hj, hx1, Bool.false_and, if_false]
  simp only [hcell, hdown, decide_eq_true hdy1, Bool.true_and, Bool.not_false, Bool.and_true,
    Bool.true_or, Bool.or_true, if_true]
  simp
  have hn := not_le.mpr hdy1
  exact ⟨fun h => absurd h hn, fun h => absurd h hn⟩

/-- If instead the post-clamp vertical velocity is exactly zero, the tick moves
nothing vertically and the solid tile below still grounds the entity. -/
theorem updateEntity_still (g : Grid) (dt : ℚ) (e : Entity)
    (hj : e.jump = false) (hdx : e.dx = 0)
    (hdown : truthy (tcell g (p2t e.x) (p2t (e.y + dt * e.dy) + 1)) = true)
    (hdy1 : bound (e.dy + dt * e.gravity) (-e.maxdy) e.maxdy = 0) :
    (updateEntity g dt e).y = e.y + dt * e.dy ∧
      (updateEntity g dt e).dy = 0 ∧ (updateEntity g dt e).falling = false := by
  have hx1 : e.x + dt * e.dx = e.x := by rw [hdx]; ring
  simp only [updateEntity, hj, hx1, Bool.false_and, if_false]
  simp [hdown, hdy1]

/-! ### Claim C3 -/

/-- Claim C3: an entity resting on solid ground (exactly on a tile-row
boundary, solid tile below, occupied tile empty) with zero velocity, no
movement intent and no force beyond gravity stays grounded after one tick:
airborne flag false, vertical velocity zero, and it does not sink (y is
unchanged). -/
theorem resting_entity_stays_grounded (g : Grid) (dt : ℚ) (e : Entity) (r : ℤ)
    (hdx : e.dx = 0) (hdy : e.dy = 0) (hl : e.left = false) (hr : e.right = false)
    (hj : e.jump = false) (hy : e.y = t2p r)
    (hcell : truthy (tcell g (p2t e.x) r) = false)
    (hdown : truthy (tcell g (p2t e.x) (r + 1)) = true)
    (hg : 0 ≤ e.gravity) (hmy : 0 ≤ e.maxdy) (hdt : 0 ≤ dt) :
    (updateEntity g dt e).falling = false ∧ (updateEntity g dt e).dy = 0 ∧
      (updateEntity g dt e).y = e.y := by
  have hy1 : e.y + dt * e.dy = e.y := by rw [hdy]; ring
  have hty : p2t (e.y + dt * e.dy) = r := by rw [hy1, hy, p2t_t2p]
  have hcell2 : truthy (tcell g (p2t e.x) (p2t (e.y + dt * e.dy))) = false := by
    rw [hty]; exact hcell
  have hdown2 : truthy (tcell g (p2t e.x) (p2t (e.y + dt * e.dy) + 1)) = true := by
    rw [hty]; exact hdown
  have hb0 : 0 ≤ bound (e.dy + dt * e.gravity) (-e.maxdy) e.maxdy := by
    have h1 : 0 ≤ dt * e.gravity := mul_nonneg hdt hg
    have h2 : 0 ≤ e.dy + dt * e.gravity := by rw [hdy]; linarith
    exact le_trans (le_min hmy h2) (le_max_right _ _)
  rcases hb0.lt_or_eq with hpos | hzero
  · have h := updateEntity_landing g dt e hj hdx hcell2 hdown2 hpos
    refine ⟨h.2.2, h.2.1, ?_⟩
    rw [h.1, hty, ← hy]
  · have h := updateEntity_still g dt e hj hdx hdown2 hzero.symm
    exact ⟨h.2.2, h.2.1, by rw [h.1, hy1]⟩

/-- A one-tile floor: cell `(0, 1)` (linear index 64) is solid, all other
cells in range are empty. -/
def gFloor : Grid := ⟨(List.replicate 65 0).set 64 1⟩

/-- Witness for claim C3: the default entity resting at the origin on the
solid tile at `(0, 1)`. -/
theorem resting_entity_witness :
    (updateEntity gFloor (1 / 60) eBase).falling = false ∧
      (updateEntity gFloor (1 / 60) eBase).dy = 0 ∧
      (updateEntity gFloor (1 / 60) eBase).y = eBase.y :=
  resting_entity_stays_grounded gFloor (1 / 60) eBase 0 (by decide) (by decide) (by decide)
    (by decide) (by decide) (by decide) (by decide) (by decide) (by decide) (by decide)
    (by decide)

/-! ### Claim C1 -/

/-- The landing scenario grid of claim C1: tile `(5, 11)` (linear index 709)
solid, every other cell in range empty. -/
def gLand : Grid := ⟨(List.replicate 710 0).set 709 1⟩

/-- A player in tile column 5 at `y = 340`, falling at 720 px/s: within one
tick of `1/60` s its `y` reaches `352 = 11 * TILE`, crossing the top boundary
of tile row 11. -/
def eC1 : Entity := { eBase with x := 160, y := 340, dy := 720 }

set_option maxRecDepth 10000

/-- Claim C1 counterexample: `eC1` is in column 5 with `dy > 0` above the
solid tile `(5, 11)` and empty tile `(5, 10)`, and this tick takes its `y`
across `11 * TILE`; yet afterwards the player is still falling with positive
`dy` (the code only snaps when the occupied tile row is empty over a solid
row, which with a top-left anchored, one-tile-tall player happens one row
higher — it never leaves the player at `y = 11 * TILE` with `dy = 0`). -/
theorem landing_claim_false :
    truthy (tcell gLand 5 11) = true ∧ truthy (tcell gLand 5 10) = false ∧
    truthy (tcell gLand 5 12) = false ∧
    eC1.dy > 0 ∧ eC1.y < 11 * TILE ∧ 11 * TILE ≤ eC1.y + (1 / 60) * eC1.dy ∧
    ¬((updateEntity gLand (1 / 60) eC1).y = 11 * TILE ∧
      (updateEntity gLand (1 / 60) eC1).dy = 0 ∧
      (updateEntity gLand (1 / 60) eC1).falling = false) := by decide

/-- Claim C1 amended: in the tick in which the falling player's bottom edge
crosses the top boundary of tile row 11 — that is, its top-left `y` enters
row 10 over the empty tile `(5, 10)` with the solid tile `(5, 11)` below —
`updateEntity` snaps `y` to exactly `10 * TILE` (resting flush on top of the
solid tile), zeroes `dy`, and clears the airborne flag. -/
theorem landing_snaps_to_row_above (g : Grid) (dt : ℚ) (e : Entity)
    (hcell : truthy (tcell g 5 10) = false)
    (hdown : truthy (tcell g 5 11) = true)
    (hx : e.x = 160) (hdx : e.dx = 0) (hj : e.jump = false)
    (hty : p2t (e.y + dt * e.dy) = 10)
    (hdy1 : bound (e.dy + dt * e.gravity) (-e.maxdy) e.maxdy > 0) :
    (updateEntity g dt e).y = 10 * TILE ∧ (updateEntity g dt e).dy = 0 ∧
      (updateEntity g dt e).falling = false := by
  have hpx : p2t e.x = 5 := by rw [hx]; decide
  have hcell2 : truthy (tcell g (p2t e.x) (p2t (e.y + dt * e.dy))) = false := by
    rw [hpx, hty]; exact hcell
  have hdown2 : truthy (tcell g (p2t e.x) (p2t (e.y + dt * e.dy) + 1)) = true := by
    rw [hpx, hty]; exact hdown
  have h := updateEntity_landing g dt e hj hdx hcell2 hdown2 hdy1
  refine ⟨?_, h.2.1, h.2.2⟩
  rw [h.1, hty]
  decide

/-- A player in column 5 at `y = 315`, falling at 600 px/s: the tick moves it
to `y = 325`, into tile row 10 right above the solid tile `(5, 11)`. -/
def eC1w : Entity := { eBase with x := 160, y := 315, dy := 600 }

/-- Witness for the amended claim C1 at the concrete landing tick. -/
theorem landing_snaps_witness :
    (updateEntity gLand (1 / 60) eC1w).y = 10 * TILE ∧
      (updateEntity gLand (1 / 60) eC1w).dy = 0 ∧
      (updateEntity gLand (1 / 60) eC1w).falling = false :=
  landing_snaps_to_row_above gLand (1 / 60) eC1w (by decide) (by decide) (by decide)
    (by decide) (by decide) (by decide) (by decide)

/-! ### Claim C9 -/

/-- Left-moving half of claim C9: a monster walking left, on the ground, that
in this tick enters the tile column over a ledge (tile below it empty) while
the next column still carries the platform (diagonal tile solid), reverses its
intent to moving right in that same tick, stays grounded (airborne flag false)
and does not leave its row: it never stands on a position whose support is
empty before reversing. -/
theorem monster_reverses_left (g : Grid) (dt : ℚ) (e : Entity) (c r : ℤ)
    (hm : e.monster = true) (hl : e.left = true) (hr : e.right = false)
    (hj : e.jump = false) (hdxn : e.dx ≤ 0) (hdy : e.dy = 0) (hy : e.y = t2p r)
    (hg : 0 ≤ e.gravity) (hmy : 0 ≤ e.maxdy) (hdt : 0 ≤ dt)
    (hcell : truthy (tcell g c r) = false)
    (hcr : truthy (tcell g (c + 1) r) = false)
    (hcd : truthy (tcell g c (r + 1)) = false)
    (hcdg : truthy (tcell g (c + 1) (r + 1)) = true)
    (hx1 : t2p c < e.x + dt * e.dx) (hx2 : e.x + dt * e.dx < t2p (c + 1)) :
    (updateEntity g dt e).left = false ∧ (updateEntity g dt e).right = true ∧
      (updateEntity g dt e).falling = false ∧
      (updateEntity g dt e).y = e.y ∧ (updateEntity g dt e).dy = 0 := by
  have htx : p2t (e.x + dt * e.dx) = c := p2t_between c _ (le_of_lt hx1) hx2
  have hyy : e.y + dt * e.dy = t2p r := by rw [hdy, hy]; ring
  have hty : p2t (e.y + dt * e.dy) = r := by rw [hyy, p2t_t2p]
  have hnx : jsMod (e.x + dt * e.dx) TILE ≠ 0 := jsMod_ne_zero_between c _ hx1 hx2
  have hb0 : 0 ≤ bound (e.dy + dt * e.gravity) (-e.maxdy) e.maxdy := by
    have h1 : 0 ≤ dt * e.gravity := mul_nonneg hdt hg
    have h2 : 0 ≤ e.dy + dt * e.gravity := by rw [hdy]; linarith
    exact le_trans (le_min hmy h2) (le_max_right _ _)
  rcases hb0.lt_or_eq with hpos | hzero
  · simp only [updateEntity, hj, Bool.false_and, if_false]
    simp [htx, hty, hcell, hcr, hcd, hcdg, hnx, hm, hl, hr, decide_eq_true hpos]
    exact hy.symm
  · simp only [updateEntity, hj, Bool.false_and, if_false]
    simp [htx, hty, hcell, hcr, hcd, hcdg, hnx, hm, hl, hr, ← hzero]
    exact Or.inr hdy

/-- Right-moving half of claim C9, the mirror image: a monster walking right
over its supporting column, with the floor tile below-ahead (the diagonal
cell) empty, reverses its intent to moving left in that same tick, stays
grounded on its supporting tile and does not leave its row. -/
theorem monster_reverses_right (g : Grid) (dt : ℚ) (e : Entity) (c r : ℤ)
    (hm : e.monster = true) (hl : e.left = false) (hr : e.right = true)
    (hj : e.jump = false) (hdxp : 0 ≤ e.dx) (hdy : e.dy = 0) (hy : e.y = t2p r)
    (hg : 0 ≤ e.gravity) (hmy : 0 ≤ e.maxdy) (hdt : 0 ≤ dt)
    (hcell : truthy (tcell g c r) = false)
    (hcr : truthy (tcell g (c + 1) r) = false)
    (hcd : truthy (tcell g c (r + 1)) = true)
    (hcdg : truthy (tcell g (c + 1) (r + 1)) = false)
    (hx1 : t2p c ≤ e.x + dt * e.dx) (hx2 : e.x + dt * e.dx < t2p (c + 1)) :
    (updateEntity g dt e).left = true ∧ (updateEntity g dt e).right = false ∧
      (updateEntity g dt e).falling = false ∧
      (updateEntity g dt e).y = e.y ∧ (updateEntity g dt e).dy = 0 := by
  have htx : p2t (e.x + dt * e.dx) = c := p2t_between c _ hx1 hx2
  have hyy : e.y + dt * e.dy = t2p r := by rw [hdy, hy]; ring
  have hty : p2t (e.y + dt * e.dy) = r := by rw [hyy, p2t_t2p]
  have hnymod : jsMod (e.y + dt * e.dy) TILE = 0 := by rw [hyy, jsMod_t2p]
  have hb0 : 0 ≤ bound (e.dy + dt * e.gravity) (-e.maxdy) e.maxdy := by
    have h1 : 0 ≤ dt * e.gravity := mul_nonneg hdt hg
    have h2 : 0 ≤ e.dy + dt * e.gravity := by rw [hdy]; linarith
    exact le_trans (le_min hmy h2) (le_max_right _ _)
  rcases hb0.lt_or_eq with hpos | hzero
  · simp only [updateEntity, hj, Bool.false_and, if_false]
    simp [htx, hty, hcell, hcr, hcd, hcdg, hnymod, hm, hl, hr, decide_eq_true hpos]
    exact hy.symm
  · simp only [updateEntity, hj, Bool.false_and, if_false]
    simp [htx, hty, hcell, hcr, hcd, hcdg, hnymod, hm, hl, hr, ← hzero]
    exact Or.inr hdy

/-- Claim C9: a monster about to step off a platform (no solid tile
below-ahead) reverses its movement intent within the very tick in which the
ledge becomes detectable, stays grounded (airborne flag false) and keeps its
row — it never stands on a position whose support is empty before reversing.
The first conjunct is the left-moving case (the tick in which the monster,
still supported by the diagonal tile, enters the column over the empty floor
tile), the second the symmetric right-moving case (the monster on its
supporting column with the floor tile below-ahead empty). -/
theorem monster_reverses_at_ledge :
    (∀ (g : Grid) (dt : ℚ) (e : Entity) (c r : ℤ),
      e.monster = true → e.left = true → e.right = false → e.jump = false →
      e.dx ≤ 0 → e.dy = 0 → e.y = t2p r →
      0 ≤ e.gravity → 0 ≤ e.maxdy → 0 ≤ dt →
      truthy (tcell g c r) = false → truthy (tcell g (c + 1) r) = false →
      truthy (tcell g c (r + 1)) = false → truthy (tcell g (c + 1) (r + 1)) = true →
      t2p c < e.x + dt * e.dx → e.x + dt * e.dx < t2p (c + 1) →
      (updateEntity g dt e).left = false ∧ (updateEntity g dt e).right = true ∧
        (updateEntity g dt e).falling = false ∧
        (updateEntity g dt e).y = e.y ∧ (updateEntity g dt e).dy = 0) ∧
    (∀ (g : Grid) (dt : ℚ) (e : Entity) (c r : ℤ),
      e.monster = true → e.left = false → e.right = true → e.jump = false →
      0 ≤ e.dx → e.dy = 0 → e.y = t2p r →
      0 ≤ e.gravity → 0 ≤ e.maxdy → 0 ≤ dt →
      truthy (tcell g c r) = false → truthy (tcell g (c + 1) r) = false →
      truthy (tcell g c (r + 1)) = true → truthy (tcell g (c + 1) (r + 1)) = false →
      t2p c ≤ e.x + dt * e.dx → e.x + dt * e.dx < t2p (c + 1) →
      (updateEntity g dt e).left = true ∧ (updateEntity g dt e).right = false ∧
        (updateEntity g dt e).falling = false ∧
        (updateEntity g dt e).y = e.y ∧ (updateEntity g dt e).dy = 0) :=
  ⟨fun g dt e c r hm hl hr hj hdxn hdy hy hg hmy hdt hcell hcr hcd hcdg hx1 hx2 =>
    monster_reverses_left g dt e c r hm hl hr hj hdxn hdy hy hg hmy hdt hcell hcr hcd hcdg
      hx1 hx2,
  fun g dt e c r hm hl hr hj hdxp hdy hy hg hmy hdt hcell hcr hcd hcdg hx1 hx2 =>
    monster_reverses_right g dt e c r hm hl hr hj hdxp hdy hy hg hmy hdt hcell hcr hcd hcdg
      hx1 hx2⟩

/-- A ledge for the left-moving case: tile `(3, 1)` (linear index 67) is
solid, tile `(2, 1)` and the rest of the range are empty. -/
def gLedge : Grid := ⟨(List.replicate 68 0).set 67 1⟩

/-- A monster walking left at 60 px/s on top of the platform tile `(3, 1)`,
whose tick moves it to `x = 79`, straddling the ledge column 2. -/
def mLedge : Entity := { eBase with x := 80, dx := -60, monster := true, player := false, left := true }

/-- A ledge for the right-moving case: tile `(2, 1)` (linear index 66) is
solid, tile `(3, 1)` and the rest of the range are empty. -/
def gLedgeR : Grid := ⟨(List.replicate 67 0).set 66 1⟩

/-- A monster walking right at 60 px/s on top of the platform tile `(2, 1)`,
whose tick moves it to `x = 81`, with the floor tile below-ahead empty. -/
def mLedgeR : Entity := { eBase with x := 80, dx := 60, monster := true, player := false, right := true }

/-- Witness for claim C9 at concrete ledge-detection ticks, one per walking
direction. -/
theorem monster_reverses_witness :
    ((updateEntity gLedge (1 / 60) mLedge).left = false ∧
      (updateEntity gLedge (1 / 60) mLedge).right = true ∧
      (updateEntity gLedge (1 / 60) mLedge).falling = false ∧
      (updateEntity gLedge (1 / 60) mLedge).y = mLedge.y ∧
      (updateEntity gLedge (1 / 60) mLedge).dy = 0) ∧
    ((updateEntity gLedgeR (1 / 60) mLedgeR).left = true ∧
      (updateEntity gLedgeR (1 / 60) mLedgeR).right = false ∧
      (updateEntity gLedgeR (1 / 60) mLedgeR).falling = false ∧
      (updateEntity gLedgeR (1 / 60) mLedgeR).y = mLedgeR.y ∧
      (updateEntity gLedgeR (1 / 60) mLedgeR).dy = 0) :=
  ⟨monster_reverses_at_ledge.1 gLedge (1 / 60) mLedge 2 0 (by decide) (by decide) (by decide)
    (by decide) (by decide) (by decide) (by decide) (by decide) (by decide) (by decide)
    (by decide) (by decide) (by decide) (by decide) (by decide) (by decide),
  monster_reverses_at_ledge.2 gLedgeR (1 / 60) mLedgeR 2 0 (by decide) (by decide) (by decide)
    (by decide) (by decide) (by decide) (by decide) (by decide) (by decide) (by decide)
    (by decide) (by decide) (by decide) (by decide) (by decide) (by decide)⟩

end Platformer
